import Mathlib

/-! Record Management System (ODBC): verification development.

Shallow embedding of `src/RecordManagementSystem.cpp`.

* The program talks to a database through ODBC.  The driver is not part of the
  program, so it is a parameter: a `Driver σ` answers `SQLDriverConnectW` and every
  executed statement with a return code, a new database state, a result set, a row
  count and diagnostic records.  Every operation is embedded for an arbitrary driver.
* `tableDriver` is the reference driver: the `books` table as a list of rows keyed by
  `id`, on which every well-formed statement succeeds.
* Console input is given to each operation already tokenised: a numeric read
  `wcin >> n` is an `Option Int` (`none` when `wcin.fail()`), a `getline` is a `wstring`.
  Values of type `int` are kept as `Int`: the program does no arithmetic on them.
* Console output is the list of result lines printed (`Out`); banners, menus, prompts
  and the table header carry no data and are left out.
* Every ODBC call is appended to `World.calls`, so handle discipline can be stated on
  the trace.  The program ignores the return codes of `SQLAllocHandle`, `SQLPrepareW`,
  `SQLBindParameter`, `SQLBindCol`, `SQLGetData` and `SQLRowCount`; these calls are logged
  and handle allocation is taken to succeed.
* Text crosses the driver boundary the way the source passes it: parameters as
  NUL-terminated buffers (`cstr`), result columns through fixed 256-unit buffers
  (`recvWChar`).  A result column may be NULL; the driver then leaves the buffer alone.
* The library routine `std::sort` is embedded as insertion sort (`stdSort`).
-/

namespace RMS

/-! Data model -/

/-- A UTF-16 code unit (`wchar_t` / `SQLWCHAR` on Windows). -/
abbrev wchar_t := Nat

/-- Contents of a `std::wstring`: a sequence of code units, NUL (`0`) allowed inside. -/
abbrev wstring := List wchar_t

/-- Record `struct Book`. -/
structure Book where
  id : Int
  title : wstring
  author : wstring
  year : Int
deriving DecidableEq, Repr

/-- Return codes of ODBC calls. -/
inductive SQLRETURN where
  | SQL_SUCCESS
  | SQL_SUCCESS_WITH_INFO
  | SQL_NO_DATA
  | SQL_ERROR
  | SQL_INVALID_HANDLE
deriving DecidableEq, Repr

open SQLRETURN

/-- The ODBC test `SQL_SUCCEEDED(rc)`: `SQL_SUCCESS` or `SQL_SUCCESS_WITH_INFO`. -/
def SQL_SUCCEEDED (rc : SQLRETURN) : Bool :=
  match rc with
  | SQL_SUCCESS => true
  | SQL_SUCCESS_WITH_INFO => true
  | _ => false

/-- The text a reader of a NUL-terminated buffer sees: everything before the first NUL.
Used for `c_str()` parameters bound with a null length pointer, for `wstring(buf)` and for
`wcout << buf`. -/
def cstr (s : wstring) : wstring := s.takeWhile (fun c => c != 0)

/-- What ends up in a `SQLWCHAR buf[n]` output buffer and is read back from it: the driver
stores at most `n - 1` code units followed by a terminator. -/
def recvWChar (n : Nat) (data : wstring) : wstring := cstr (data.take (n - 1))

/-- The six statements the program issues, each with the values of its bound parameters
in marker order. -/
inductive Stmt where
  /-- Statement `SELECT id, title, author, year FROM books` -/
  | selectAll
  /-- Statement `SELECT id, title, author, year FROM books WHERE id = ?` -/
  | selectById (id : Int)
  /-- Statement `INSERT INTO books (id, title, author, year) VALUES (?, ?, ?, ?)` -/
  | insert (id : Int) (title author : wstring) (year : Int)
  /-- Statement `SELECT id FROM books WHERE id = ?` -/
  | checkId (id : Int)
  /-- Statement `UPDATE books SET title = ?, author = ?, year = ? WHERE id = ?` -/
  | update (title author : wstring) (year : Int) (id : Int)
  /-- Statement `DELETE FROM books WHERE id = ?` -/
  | delete (id : Int)
deriving DecidableEq, Repr

/-- One row of a result set, by column number; `none` is SQL NULL.  For the existence
check (`Stmt.checkId`) only column 1 exists and the others are unused. -/
structure Row where
  c1 : Option Int
  c2 : Option wstring
  c3 : Option wstring
  c4 : Option Int
deriving DecidableEq, Repr

/-- A diagnostic record as returned by `SQLGetDiagRecW`. -/
structure Diag where
  sqlState : wstring
  nativeError : Int
  message : wstring
deriving DecidableEq, Repr

/-- The driver's answer to `SQLExecute` / `SQLExecDirectW`. -/
structure Reply (σ : Type) where
  /-- return code of the execute call -/
  rc : SQLRETURN
  /-- database state after the statement -/
  db : σ
  /-- outcomes of the successive `SQLFetch` calls; after the last one `SQL_NO_DATA` -/
  cursor : List (SQLRETURN × Row)
  /-- value reported by `SQLRowCount` -/
  rowCount : Int
  /-- diagnostic records left on the statement handle -/
  diag : List Diag

/-- An ODBC driver together with the database behind it, over database states `σ`. -/
structure Driver (σ : Type) where
  /-- outcome of `SQLDriverConnectW` and the diagnostics left on the connection handle -/
  connect : σ → SQLRETURN × List Diag
  /-- outcome of executing a statement with its bound parameters -/
  execute : σ → Stmt → Reply σ

/-- Kind of handle passed to `showError`. -/
inductive HandleType where
  | SQL_HANDLE_DBC
  | SQL_HANDLE_STMT
deriving DecidableEq, Repr

/-- ODBC calls made by the program.  Statement handles are identified by allocation
number. -/
inductive Call where
  | AllocEnv
  | SetEnvAttr
  | AllocDbc
  | DriverConnect
  | Disconnect
  | FreeDbc
  | FreeEnv
  | AllocStmt (h : Nat)
  | Prepare (h : Nat)
  | BindParameter (h : Nat) (n : Nat)
  | Execute (h : Nat) (s : Stmt)
  | ExecDirect (h : Nat) (s : Stmt)
  | BindCol (h : Nat) (n : Nat)
  | Fetch (h : Nat)
  | GetData (h : Nat) (n : Nat)
  | RowCount (h : Nat)
  | GetDiagRec (t : HandleType) (h : Nat) (i : Nat)
  | FreeStmt (h : Nat)
deriving DecidableEq, Repr

/-- Result lines written to `wcout`. -/
inductive Out where
  /-- Line "ODBC Connection established successfully!" -/
  | connected
  /-- Line "Connection Failed via ODBC." -/
  | connectionFailed
  /-- Line "ODBC Error [state] : message" -/
  | odbcError (sqlState message : wstring)
  /-- Line "Invalid input. Please enter a number." -/
  | invalidNumber
  /-- Line "Record added successfully!" -/
  | added
  /-- Line "Failed to add record." -/
  | addFailed
  /-- Line "No records found." -/
  | noRecordsFound
  /-- one table line: id, title, author, year -/
  | bookRow (b : Book)
  /-- Lines "--- Record Found! ---" and "ID: .. | Title: .. | Author: .. | Year: .." -/
  | recordFound (id : Int) (title author : wstring) (year : Int)
  /-- Line "Record not found." -/
  | recordNotFound
  /-- Line "Record with ID n deleted successfully." -/
  | deleted (id : Int)
  /-- Line "Record with ID n not found." -/
  | idNotFound (id : Int)
  /-- Line "Record with ID n updated successfully." -/
  | updated (id : Int)
  /-- Line "No records to sort." -/
  | noRecordsToSort
  /-- Line "Invalid sort choice. Displaying unsorted." -/
  | invalidSortChoice
  /-- Line "No records to export." -/
  | noRecordsToExport
  /-- Line "Error: Could not create CSV file." -/
  | csvCreateFailed
  /-- Line "All records successfully exported to books.csv." -/
  | exported
  /-- Line "Invalid input." -/
  | invalidInput
  /-- Line "Exiting..." -/
  | exiting
  /-- Line "Invalid choice." -/
  | invalidChoice
deriving DecidableEq, Repr

/-- Everything the program can observe or change. -/
structure World (σ : Type) where
  /-- the database behind the driver -/
  db : σ
  /-- allocation number of the next statement handle -/
  nextStmt : Nat
  /-- ODBC calls made so far, oldest first -/
  calls : List Call
  /-- lines printed so far, oldest first -/
  out : List Out
  /-- whether `books.csv` can be created -/
  csvWritable : Bool
  /-- records written to `books.csv` after the BOM and the header line, if it was written -/
  csv : Option (List Book)

/-- Record an ODBC call. -/
def World.log {σ : Type} (w : World σ) (c : Call) : World σ :=
  { w with calls := w.calls ++ [c] }

/-- Write a line to `wcout`. -/
def World.put {σ : Type} (w : World σ) (o : Out) : World σ :=
  { w with out := w.out ++ [o] }

/-- Call `SQLAllocHandle(SQL_HANDLE_STMT, hDbc, &hStmt)`: a new statement handle. -/
def allocStmt {σ : Type} (w : World σ) : Nat × World σ :=
  (w.nextStmt, { w with nextStmt := w.nextStmt + 1, calls := w.calls ++ [Call.AllocStmt w.nextStmt] })

/-- Call `SQLExecute` / `SQLExecDirectW`, logged as `c`: the driver runs statement `s`. -/
def runStmt {σ : Type} (drv : Driver σ) (w : World σ) (c : Call) (s : Stmt) : Reply σ × World σ :=
  let r := drv.execute w.db s
  (r, { w with db := r.db, calls := w.calls ++ [c] })

/-- Call `SQLFetch`: the next outcome of the cursor, `SQL_NO_DATA` when it is exhausted. -/
def SQLFetch (cursor : List (SQLRETURN × Row)) : SQLRETURN × Option Row :=
  match cursor with
  | [] => (SQL_NO_DATA, none)
  | (rc, row) :: _ => (rc, some row)

/-! The program -/

/-- The loop of `showError`: record `i` is fetched with `SQLGetDiagRecW` and printed until
the call answers `SQL_NO_DATA`.  `sqlState` is a 6-unit buffer, `message` a 256-unit one. -/
def showErrorLoop {σ : Type} (t : HandleType) (h : Nat) : Nat → List Diag → World σ → World σ
  | i, [], w => w.log (Call.GetDiagRec t h i)
  | i, d :: ds, w =>
    showErrorLoop t h (i + 1) ds
      ((w.log (Call.GetDiagRec t h i)).put (Out.odbcError (recvWChar 6 d.sqlState) (recvWChar 256 d.message)))

/-- Function `showError(handleType, handle)`; `diag` are the records the driver holds for the handle. -/
def showError {σ : Type} (t : HandleType) (h : Nat) (diag : List Diag) (w : World σ) : World σ :=
  showErrorLoop t h 1 diag w

/-- Function `connectDB()`: allocates the environment and connection handles and connects. -/
def connectDB {σ : Type} (drv : Driver σ) (w : World σ) : Bool × World σ :=
  let w := w.log Call.AllocEnv
  let w := w.log Call.SetEnvAttr
  let w := w.log Call.AllocDbc
  let r := drv.connect w.db
  let w := w.log Call.DriverConnect
  if SQL_SUCCEEDED r.1 then
    (true, w.put Out.connected)
  else
    (false, showError HandleType.SQL_HANDLE_DBC 0 r.2 (w.put Out.connectionFailed))

/-- Function `disconnectDB()`. -/
def disconnectDB {σ : Type} (w : World σ) : World σ :=
  ((w.log Call.Disconnect).log Call.FreeDbc).log Call.FreeEnv

/-- An integer output buffer after the driver delivered column `c` into it: a NULL column
sets only the indicator, which the program never reads, and leaves the old value. -/
def recvInt (c : Option Int) (old : Int) : Int :=
  match c with
  | some v => v
  | none => old

/-- The text read from a `SQLWCHAR buf[n]` output buffer after the driver delivered column
`c` into it; `old` is the text it held before. -/
def recvText (n : Nat) (c : Option wstring) (old : wstring) : wstring :=
  match c with
  | some v => recvWChar n v
  | none => old

/-- The locals `id`, `title[256]`, `author[256]`, `year` of `fetchAllRecords`, declared once
before the loop; the text buffers as read by `wstring(title)`, `wstring(author)`. -/
structure Buffers where
  id : Int
  title : wstring
  author : wstring
  year : Int
deriving DecidableEq, Repr

/-- The buffers as initialised by `{}`. -/
def Buffers.zero : Buffers := { id := 0, title := [], author := [], year := 0 }

/-- The four `SQLGetData` calls of one loop pass: columns 1..4 of the row into `id`,
`title`, `author`, `year`. -/
def Buffers.getData (buf : Buffers) (r : Row) : Buffers :=
  { id := recvInt r.c1 buf.id, title := recvText 256 r.c2 buf.title,
    author := recvText 256 r.c3 buf.author, year := recvInt r.c4 buf.year }

/-- The record pushed at the end of a loop pass. -/
def Buffers.book (buf : Buffers) : Book :=
  { id := buf.id, title := buf.title, author := buf.author, year := buf.year }

/-- The `while (SQLFetch(hStmt) == SQL_SUCCESS)` loop of `fetchAllRecords`; `buf` are the
buffers as the previous pass left them. -/
def fetchLoop {σ : Type} (h : Nat) :
    List (SQLRETURN × Row) → Buffers → List Book → World σ → List Book × World σ
  | [], _, records, w => (records, w.log (Call.Fetch h))
  | (rc, row) :: rest, buf, records, w =>
    let w := w.log (Call.Fetch h)
    if rc = SQL_SUCCESS then
      let w := w.log (Call.GetData h 1)
      let w := w.log (Call.GetData h 2)
      let w := w.log (Call.GetData h 3)
      let w := w.log (Call.GetData h 4)
      let buf := buf.getData row
      fetchLoop h rest buf (records ++ [buf.book]) w
    else
      (records, w)

/-- Function `fetchAllRecords()`. -/
def fetchAllRecords {σ : Type} (drv : Driver σ) (w : World σ) : List Book × World σ :=
  let (h, w) := allocStmt w
  let (r, w) := runStmt drv w (Call.ExecDirect h Stmt.selectAll) Stmt.selectAll
  let (records, w) :=
    if SQL_SUCCEEDED r.rc then
      fetchLoop h r.cursor Buffers.zero [] w
    else
      ([], showError HandleType.SQL_HANDLE_STMT h r.diag w)
  (records, w.log (Call.FreeStmt h))

/-- Function `addRecord()`.  Inputs in reading order: id, title line, author line, year.  Title and
author are bound as NUL-terminated buffers (`c_str()`, null length pointer). -/
def addRecord {σ : Type} (drv : Driver σ) (idIn : Option Int) (title author : wstring)
    (yearIn : Option Int) (w : World σ) : World σ :=
  match idIn with
  | none => w.put Out.invalidNumber
  | some id =>
    match yearIn with
    | none => w.put Out.invalidNumber
    | some year =>
      let (h, w) := allocStmt w
      let w := w.log (Call.Prepare h)
      let w := w.log (Call.BindParameter h 1)
      let w := w.log (Call.BindParameter h 2)
      let w := w.log (Call.BindParameter h 3)
      let w := w.log (Call.BindParameter h 4)
      let s := Stmt.insert id (cstr title) (cstr author) year
      let (r, w) := runStmt drv w (Call.Execute h s) s
      let w :=
        if SQL_SUCCEEDED r.rc then
          w.put Out.added
        else
          showError HandleType.SQL_HANDLE_STMT h r.diag (w.put Out.addFailed)
      w.log (Call.FreeStmt h)

/-- The table lines printed by `displayAllRecords` and `sortRecords`. -/
def printRows {σ : Type} (books : List Book) (w : World σ) : World σ :=
  { w with out := w.out ++ books.map Out.bookRow }

/-- Function `displayAllRecords()`. -/
def displayAllRecords {σ : Type} (drv : Driver σ) (w : World σ) : World σ :=
  let (books, w) := fetchAllRecords drv w
  if books.isEmpty then
    w.put Out.noRecordsFound
  else
    printRows books w

/-- Function `searchRecordByID()`.  The four columns are bound with `SQLBindCol` to the
zero-initialised `id`, `title[256]`, `author[256]`, `year`, and printed from there after one
`SQLFetch`. -/
def searchRecordByID {σ : Type} (drv : Driver σ) (searchIn : Option Int) (w : World σ) : World σ :=
  match searchIn with
  | none => w.put Out.invalidNumber
  | some searchID =>
    let (h, w) := allocStmt w
    let w := w.log (Call.Prepare h)
    let w := w.log (Call.BindParameter h 1)
    let s := Stmt.selectById searchID
    let (r, w) := runStmt drv w (Call.Execute h s) s
    let w :=
      if SQL_SUCCEEDED r.rc then
        let w := w.log (Call.BindCol h 1)
        let w := w.log (Call.BindCol h 2)
        let w := w.log (Call.BindCol h 3)
        let w := w.log (Call.BindCol h 4)
        let w := w.log (Call.Fetch h)
        match SQLFetch r.cursor with
        | (SQL_SUCCESS, some row) =>
          w.put (Out.recordFound (recvInt row.c1 0) (recvText 256 row.c2 []) (recvText 256 row.c3 [])
            (recvInt row.c4 0))
        | _ => w.put Out.recordNotFound
      else
        showError HandleType.SQL_HANDLE_STMT h r.diag w
    w.log (Call.FreeStmt h)

/-- Function `deleteRecord()`. -/
def deleteRecord {σ : Type} (drv : Driver σ) (idIn : Option Int) (w : World σ) : World σ :=
  match idIn with
  | none => w.put Out.invalidNumber
  | some id =>
    let (h, w) := allocStmt w
    let w := w.log (Call.Prepare h)
    let w := w.log (Call.BindParameter h 1)
    let s := Stmt.delete id
    let (r, w) := runStmt drv w (Call.Execute h s) s
    let w :=
      if SQL_SUCCEEDED r.rc then
        let w := w.log (Call.RowCount h)
        if r.rowCount > 0 then
          w.put (Out.deleted id)
        else
          w.put (Out.idNotFound id)
      else
        showError HandleType.SQL_HANDLE_STMT h r.diag w
    w.log (Call.FreeStmt h)

/-- Function `updateRecord()`.  Inputs in reading order: id, new title line, new author line, new
year; the last three are read only after the existence check has found a row. -/
def updateRecord {σ : Type} (drv : Driver σ) (idIn : Option Int) (newTitle newAuthor : wstring)
    (newYearIn : Option Int) (w : World σ) : World σ :=
  match idIn with
  | none => w.put Out.invalidNumber
  | some id =>
    let (hCheck, w) := allocStmt w
    let w := w.log (Call.Prepare hCheck)
    let w := w.log (Call.BindParameter hCheck 1)
    let sc := Stmt.checkId id
    let (rCheck, w) := runStmt drv w (Call.Execute hCheck sc) sc
    -- `SQL_SUCCEEDED(SQLExecute(..)) && SQLFetch(..) == SQL_SUCCESS`, short-circuit
    let (found, w) :=
      if SQL_SUCCEEDED rCheck.rc then
        (decide ((SQLFetch rCheck.cursor).1 = SQL_SUCCESS), w.log (Call.Fetch hCheck))
      else
        (false, w)
    if found then
      let w := w.log (Call.FreeStmt hCheck)
      match newYearIn with
      | none => w.put Out.invalidNumber
      | some newYear =>
        let (hUpdate, w) := allocStmt w
        let w := w.log (Call.Prepare hUpdate)
        let w := w.log (Call.BindParameter hUpdate 1)
        let w := w.log (Call.BindParameter hUpdate 2)
        let w := w.log (Call.BindParameter hUpdate 3)
        let w := w.log (Call.BindParameter hUpdate 4)
        let su := Stmt.update (cstr newTitle) (cstr newAuthor) newYear id
        let (rUpdate, w) := runStmt drv w (Call.Execute hUpdate su) su
        let w :=
          if SQL_SUCCEEDED rUpdate.rc then
            w.put (Out.updated id)
          else
            showError HandleType.SQL_HANDLE_STMT hUpdate rUpdate.diag w
        w.log (Call.FreeStmt hUpdate)
    else
      (w.put (Out.idNotFound id)).log (Call.FreeStmt hCheck)

/-- Comparison `a < b` of two `std::wstring`s: lexicographic on code units, a proper prefix
being smaller. -/
def wstring_lt : wstring → wstring → Bool
  | _, [] => false
  | [], _ :: _ => true
  | a :: as, b :: bs => if a < b then true else if b < a then false else wstring_lt as bs

/-- Comparator of `case 1`: `a.title < b.title`. -/
def byTitle (a b : Book) : Bool := wstring_lt a.title b.title

/-- Comparator of `case 2`: `a.year < b.year`. -/
def byYear (a b : Book) : Bool := decide (a.year < b.year)

/-- Insertion of `x` into a list ordered by `lt`, after the elements smaller than `x`. -/
def insertBy (lt : Book → Book → Bool) (x : Book) : List Book → List Book
  | [] => [x]
  | y :: ys => if lt y x then y :: insertBy lt x ys else x :: y :: ys

/-- Library routine `std::sort(first, last, comp)`, here as insertion sort.  The standard
fixes the result only up to the order of elements with equal keys. -/
def stdSort (lt : Book → Book → Bool) (books : List Book) : List Book :=
  books.foldr (insertBy lt) []

/-- Function `sortRecords()`.  The sort choice is read only when some record was fetched. -/
def sortRecords {σ : Type} (drv : Driver σ) (choiceIn : Option Int) (w : World σ) : World σ :=
  let (books, w) := fetchAllRecords drv w
  if books.isEmpty then
    w.put Out.noRecordsToSort
  else
    match choiceIn with
    | none => w.put Out.invalidNumber
    | some choice =>
      let (books, w) :=
        if choice = 1 then (stdSort byTitle books, w)
        else if choice = 2 then (stdSort byYear books, w)
        else (books, w.put Out.invalidSortChoice)
      printRows books w

/-- Function `exportToCSV()`. -/
def exportToCSV {σ : Type} (drv : Driver σ) (w : World σ) : World σ :=
  let (books, w) := fetchAllRecords drv w
  if books.isEmpty then
    w.put Out.noRecordsToExport
  else if !w.csvWritable then
    w.put Out.csvCreateFailed
  else
    ({ w with csv := some books }).put Out.exported

/-- What the operator enters during one pass of the menu loop: the menu choice and then,
in reading order, the values the chosen operation asks for. -/
structure Keys where
  choice : Option Int
  num1 : Option Int
  line1 : wstring
  line2 : wstring
  num2 : Option Int
deriving DecidableEq, Repr

/-- The `switch (choice)` of `main`. -/
def dispatch {σ : Type} (drv : Driver σ) (choice : Int) (k : Keys) (w : World σ) : World σ :=
  if choice = 1 then addRecord drv k.num1 k.line1 k.line2 k.num2 w
  else if choice = 2 then displayAllRecords drv w
  else if choice = 3 then searchRecordByID drv k.num1 w
  else if choice = 4 then deleteRecord drv k.num1 w
  else if choice = 5 then updateRecord drv k.num1 k.line1 k.line2 k.num2 w
  else if choice = 6 then sortRecords drv k.num1 w
  else if choice = 7 then exportToCSV drv w
  else if choice = 8 then w.put Out.exiting
  else w.put Out.invalidChoice

/-- The `do { .. } while (choice != 8)` loop of `main`.  A failed read of the choice prints
"Invalid input." and goes on; the loop ends only on choice 8, so on input that never
chooses 8 there is no result. -/
def menuLoop {σ : Type} (drv : Driver σ) : List Keys → World σ → Option (World σ)
  | [], _ => none
  | k :: ks, w =>
    match k.choice with
    | none => menuLoop drv ks (w.put Out.invalidInput)
    | some choice =>
      let w := dispatch drv choice k w
      if choice = 8 then some w else menuLoop drv ks w

/-- Function `main()`: exit code and final world, when the program terminates. -/
def main {σ : Type} (drv : Driver σ) (input : List Keys) (w : World σ) : Option (Int × World σ) :=
  let (connected, w) := connectDB drv w
  if !connected then
    some (1, w)
  else
    match menuLoop drv input w with
    | none => none
    | some w => some (0, disconnectDB w)

/-! Reference driver: the `books` table -/

/-- The table `books(id INTEGER PRIMARY KEY, title VARCHAR(255), author VARCHAR(255),
year INTEGER)`: its rows in storage order, and whether text longer than a column is
rejected (`strict`) or cut to the column width. -/
structure TableDb where
  rows : List Book
  strict : Bool
deriving DecidableEq, Repr

/-- Primary-key constraint: no two rows share an id. -/
def TableDb.keyed (db : TableDb) : Prop := (db.rows.map Book.id).Nodup

instance (db : TableDb) : Decidable db.keyed := by unfold TableDb.keyed; infer_instance

/-- Code units of an ASCII text. -/
def ascii (s : String) : wstring := s.data.map Char.toNat

/-- Diagnostic for a primary-key violation. -/
def duplicateKey : Diag := { sqlState := ascii "23000", nativeError := 1062, message := ascii "Duplicate entry for key PRIMARY" }

/-- Diagnostic for text longer than its column. -/
def dataTooLong : Diag := { sqlState := ascii "22001", nativeError := 1406, message := ascii "Data too long for column" }

/-- A row of the full select. -/
def rowOfBook (b : Book) : Row :=
  { c1 := some b.id, c2 := some b.title, c3 := some b.author, c4 := some b.year }

/-- A failed statement: nothing changes, one diagnostic record. -/
def TableDb.reject (db : TableDb) (d : Diag) : Reply TableDb :=
  { rc := SQL_ERROR, db := db, cursor := [], rowCount := 0, diag := [d] }

/-- A successful query. -/
def TableDb.answer (db : TableDb) (rows : List Row) : Reply TableDb :=
  { rc := SQL_SUCCESS, db := db, cursor := rows.map (fun r => (SQL_SUCCESS, r)), rowCount := rows.length, diag := [] }

/-- A successful change. -/
def TableDb.change (db : TableDb) (rows : List Book) (n : Nat) : Reply TableDb :=
  { rc := SQL_SUCCESS, db := { db with rows := rows }, cursor := [], rowCount := n, diag := [] }

/-- Whether a text value is refused by a `VARCHAR(255)` column. -/
def TableDb.refuses (db : TableDb) (t : wstring) : Bool := db.strict && decide (255 < t.length)

/-- Statement execution on the table. -/
def tableExecute (db : TableDb) : Stmt → Reply TableDb
  | Stmt.selectAll => db.answer (db.rows.map rowOfBook)
  | Stmt.selectById id => db.answer ((db.rows.filter (fun b => b.id = id)).map rowOfBook)
  | Stmt.checkId id =>
    db.answer ((db.rows.filter (fun b => b.id = id)).map (fun b => { c1 := some b.id, c2 := none, c3 := none, c4 := none }))
  | Stmt.insert id title author year =>
    if db.rows.any (fun b => b.id = id) then db.reject duplicateKey
    else if db.refuses title || db.refuses author then db.reject dataTooLong
    else db.change (db.rows ++ [{ id := id, title := title.take 255, author := author.take 255, year := year }]) 1
  | Stmt.update title author year id =>
    if db.refuses title || db.refuses author then db.reject dataTooLong
    else
      db.change
        (db.rows.map (fun b =>
          if b.id = id then { id := b.id, title := title.take 255, author := author.take 255, year := year } else b))
        (db.rows.filter (fun b => b.id = id)).length
  | Stmt.delete id =>
    db.change (db.rows.filter (fun b => b.id ≠ id)) (db.rows.filter (fun b => b.id = id)).length

/-- The reference driver: connecting succeeds and statements act on the table.  A change
that matches no row still succeeds, with row count 0. -/
def tableDriver : Driver TableDb :=
  { connect := fun _ => (SQL_SUCCESS, []), execute := tableExecute }

/-- The table shared with a second client that deletes a row right after this program's
existence check has read it. -/
def racingDriver : Driver TableDb :=
  { connect := fun _ => (SQL_SUCCESS, [])
    execute := fun db s =>
      match s with
      | Stmt.checkId id =>
        let r := tableExecute db s
        { r with db := { db with rows := db.rows.filter (fun b => b.id ≠ id) } }
      | _ => tableExecute db s }

/-- Diagnostic of a refused connection or a lost link. -/
def linkFailure : Diag := { sqlState := ascii "08S01", nativeError := 2013, message := ascii "Communication link failure" }

/-- A driver on which connecting and every statement fail with the diagnostic record `d`;
the database is left alone. -/
def failingDriver (d : Diag) : Driver TableDb :=
  { connect := fun _ => (SQL_ERROR, [d])
    execute := fun db _ => db.reject d }

/-- The driver `drv` with every row count replaced by `n`. -/
def withRowCount {σ : Type} (drv : Driver σ) (n : Int) : Driver σ :=
  { connect := drv.connect
    execute := fun db s => { drv.execute db s with rowCount := n } }

/-- A fresh process on database `db`. -/
def World.start {σ : Type} (db : σ) : World σ :=
  { db := db, nextStmt := 1, calls := [], out := [], csvWritable := true, csv := none }

/-! Statement-handle discipline on call traces -/

/-- Bookkeeping while scanning a trace: handles allocated so far, handles allocated and not
yet freed, live handles that already carry a statement, and whether every call so far was
legal. -/
structure Handles where
  seen : List Nat
  live : List Nat
  bound : List Nat
  ok : Bool
deriving DecidableEq, Repr

/-- The scan fails from here on. -/
def Handles.fail (s : Handles) : Handles := { s with ok := false }

/-- A call that uses statement handle `h` is legal only while `h` is live. -/
def Handles.use (s : Handles) (h : Nat) : Handles := if h ∈ s.live then s else s.fail

/-- Attaching a statement to `h` is legal only while `h` is live and carries none. -/
def Handles.attach (s : Handles) (h : Nat) : Handles :=
  if h ∈ s.live ∧ h ∉ s.bound then { s with bound := h :: s.bound } else s.fail

/-- Effect of one call on the bookkeeping. -/
def Handles.step (s : Handles) : Call → Handles
  | Call.AllocStmt h =>
    if h ∈ s.seen then s.fail else { s with seen := h :: s.seen, live := h :: s.live }
  | Call.FreeStmt h =>
    if h ∈ s.live then { s with live := s.live.erase h, bound := s.bound.erase h } else s.fail
  | Call.Prepare h => s.attach h
  | Call.ExecDirect h _ => s.attach h
  | Call.BindParameter h _ => s.use h
  | Call.Execute h _ => s.use h
  | Call.BindCol h _ => s.use h
  | Call.Fetch h => s.use h
  | Call.GetData h _ => s.use h
  | Call.RowCount h => s.use h
  | Call.GetDiagRec HandleType.SQL_HANDLE_STMT h _ => s.use h
  | _ => s

/-- A trace keeps the statement-handle discipline: every allocation is of a new handle, no
call uses a handle that is not live (never allocated, or already freed), no handle gets two
statements, every free is of a live handle, and at the end no handle is live. -/
def disciplined (cs : List Call) : Bool :=
  let s := cs.foldl Handles.step { seen := [], live := [], bound := [], ok := true }
  s.ok && s.live.isEmpty

/-- The calls made between world `w` and the later world `w2`. -/
def newCalls {σ : Type} (w w2 : World σ) : List Call := w2.calls.drop w.calls.length

/-- The lines printed between world `w` and the later world `w2`. -/
def newOut {σ : Type} (w w2 : World σ) : List Out := w2.out.drop w.out.length

/-! Closed forms of the two loops, and the properties stated about updates -/

/-- The calls of the fetch loop of `fetchAllRecords` on a cursor. -/
def fetchCalls (h : Nat) : List (SQLRETURN × Row) → List Call
  | [] => [Call.Fetch h]
  | (rc, _) :: rest =>
    if rc = SQL_SUCCESS then
      Call.Fetch h :: Call.GetData h 1 :: Call.GetData h 2 :: Call.GetData h 3 :: Call.GetData h 4 ::
        fetchCalls h rest
    else [Call.Fetch h]

/-- The rows the fetch loop reads: those fetched with `SQL_SUCCESS` before the first other
outcome. -/
def delivered (cursor : List (SQLRETURN × Row)) : List Row :=
  (cursor.takeWhile (fun p => decide (p.1 = SQL_SUCCESS))).map Prod.snd

/-- The records the fetch loop pushes for the rows it reads, from buffers `buf` on. -/
def marshal : Buffers → List Row → List Book
  | _, [] => []
  | buf, r :: rs => (buf.getData r).book :: marshal (buf.getData r) rs

/-- The calls of `showError` from record number `i` on. -/
def diagCalls (t : HandleType) (h : Nat) : Nat → List Diag → List Call
  | i, [] => [Call.GetDiagRec t h i]
  | i, _ :: ds => Call.GetDiagRec t h i :: diagCalls t h (i + 1) ds

/-- The lines `showError` prints for the records `ds`. -/
def diagLines (ds : List Diag) : List Out :=
  ds.map (fun d => Out.odbcError (recvWChar 6 d.sqlState) (recvWChar 256 d.message))

/-- The table after the record(s) with id `id` got title `t`, author `a` and year `y`:
ids stay, every other record stays as it was. -/
def updatedRows (rows : List Book) (id : Int) (t a : wstring) (y : Int) : List Book :=
  rows.map (fun b => if b.id = id then { id := b.id, title := t, author := a, year := y } else b)

/-- Update-existing, for entered id `id`, title `t`, author `a` and year `y` in world `w`:
`updateRecord` reports the record as updated and the table afterwards is `updatedRows`. -/
def UpdateExisting (w : World TableDb) (id : Int) (t a : wstring) (y : Int) : Prop :=
  newOut w (updateRecord tableDriver (some id) t a (some y) w) = [Out.updated id] ∧
  (updateRecord tableDriver (some id) t a (some y) w).db.rows = updatedRows w.db.rows id t a y

/-- A store with two records that rejects over-long text. -/
def shelf : World TableDb :=
  World.start
    { rows := [{ id := 1, title := ascii "Emma", author := ascii "Austen", year := 2001 },
               { id := 2, title := ascii "Dune", author := ascii "Herbert", year := 1999 }]
      strict := true }

/-- The same store on a database that cuts over-long text to the column width. -/
def looseShelf : World TableDb := { shelf with db := { shelf.db with strict := false } }

/-- A record not on the shelf. -/
def ulysses : Book := { id := 3, title := ascii "Ulysses", author := ascii "Joyce", year := 1922 }

/-! Theorems -/

/-! Buffers and table lookups -/

theorem cstr_eq_self (s : wstring) (h : 0 ∉ s) : cstr s = s := by
  unfold cstr
  rw [List.takeWhile_eq_self_iff]
  intro c hc
  have : c ≠ 0 := fun e => h (e ▸ hc)
  simpa using this

theorem recvWChar_eq_self (s : wstring) (hlen : s.length ≤ 255) (h : 0 ∉ s) :
    recvWChar 256 s = s := by
  unfold recvWChar
  rw [List.take_of_length_le (by simpa using hlen)]
  exact cstr_eq_self s h

theorem filter_id_fresh (rows : List Book) (id : Int) (h : ∀ r ∈ rows, r.id ≠ id) :
    rows.filter (fun b => decide (b.id = id)) = [] := by
  simp only [List.filter_eq_nil_iff]
  intro r hr
  simpa using h r hr

theorem any_id_fresh (rows : List Book) (id : Int) (h : ∀ r ∈ rows, r.id ≠ id) :
    rows.any (fun b => decide (b.id = id)) = false := by
  simp only [List.any_eq_false]
  intro r hr
  simpa using h r hr

theorem filter_ne_fresh (rows : List Book) (id : Int) (h : ∀ r ∈ rows, r.id ≠ id) :
    rows.filter (fun b => !decide (b.id = id)) = rows := by
  rw [List.filter_eq_self]
  intro r hr
  simpa using h r hr

theorem filter_id_pos (rows : List Book) (id : Int) (h : ∃ r ∈ rows, r.id = id) :
    ∃ r rest, rows.filter (fun b => decide (b.id = id)) = r :: rest := by
  obtain ⟨r, hr, hid⟩ := h
  have hmem : r ∈ rows.filter (fun b => decide (b.id = id)) := by
    simp [List.mem_filter, hr, hid]
  cases hf : rows.filter (fun b => decide (b.id = id)) with
  | nil => rw [hf] at hmem; cases hmem
  | cons x xs => exact ⟨x, xs, rfl⟩

theorem filter_id_keyed (rows : List Book) (id : Int) (hk : (rows.map Book.id).Nodup)
    (h : ∃ r ∈ rows, r.id = id) :
    (rows.filter (fun b => decide (b.id = id))).length = 1 := by
  induction rows with
  | nil => obtain ⟨r, hr, _⟩ := h; cases hr
  | cons x xs ih =>
    rw [List.map_cons, List.nodup_cons] at hk
    by_cases hx : x.id = id
    · have hfresh : ∀ r ∈ xs, r.id ≠ id := by
        intro r hr e
        exact hk.1 (List.mem_map.mpr ⟨r, hr, by rw [e, hx]⟩)
      simp [List.filter_cons, hx, filter_id_fresh xs id hfresh]
    · have hex : ∃ r ∈ xs, r.id = id := by
        obtain ⟨r, hr, e⟩ := h
        rcases List.mem_cons.mp hr with rfl | hr
        · exact absurd e hx
        · exact ⟨r, hr, e⟩
      simp [List.filter_cons, hx, ih hk.2 hex]

/-! The loops in closed form -/

theorem fetchLoop_eq {σ : Type} (h : Nat) (cursor : List (SQLRETURN × Row)) (buf : Buffers)
    (acc : List Book) (w : World σ) :
    fetchLoop h cursor buf acc w =
      (acc ++ marshal buf (delivered cursor), { w with calls := w.calls ++ fetchCalls h cursor }) := by
  induction cursor generalizing buf acc w with
  | nil => simp [fetchLoop, fetchCalls, delivered, marshal, World.log]
  | cons p rest ih =>
    obtain ⟨rc, row⟩ := p
    by_cases hrc : rc = SQL_SUCCESS
    · simp [fetchLoop, fetchCalls, delivered, marshal, World.log, hrc, ih, List.takeWhile_cons]
    · simp [fetchLoop, fetchCalls, delivered, marshal, World.log, hrc, List.takeWhile_cons]

theorem showErrorLoop_eq {σ : Type} (t : HandleType) (h i : Nat) (ds : List Diag) (w : World σ) :
    showErrorLoop t h i ds w =
      { w with calls := w.calls ++ diagCalls t h i ds, out := w.out ++ diagLines ds } := by
  induction ds generalizing i w with
  | nil => simp [showErrorLoop, diagCalls, diagLines, World.log]
  | cons d ds ih => simp [showErrorLoop, diagCalls, diagLines, World.log, World.put, ih]

theorem fetchAllRecords_eq {σ : Type} (drv : Driver σ) (w : World σ) :
    fetchAllRecords drv w =
      if SQL_SUCCEEDED (drv.execute w.db Stmt.selectAll).rc then
        (marshal Buffers.zero (delivered (drv.execute w.db Stmt.selectAll).cursor),
          { w with
            db := (drv.execute w.db Stmt.selectAll).db
            nextStmt := w.nextStmt + 1
            calls := w.calls ++ ([Call.AllocStmt w.nextStmt, Call.ExecDirect w.nextStmt Stmt.selectAll]
              ++ fetchCalls w.nextStmt (drv.execute w.db Stmt.selectAll).cursor
              ++ [Call.FreeStmt w.nextStmt]) })
      else
        ([],
          { w with
            db := (drv.execute w.db Stmt.selectAll).db
            nextStmt := w.nextStmt + 1
            calls := w.calls ++ ([Call.AllocStmt w.nextStmt, Call.ExecDirect w.nextStmt Stmt.selectAll]
              ++ diagCalls HandleType.SQL_HANDLE_STMT w.nextStmt 1 (drv.execute w.db Stmt.selectAll).diag
              ++ [Call.FreeStmt w.nextStmt])
            out := w.out ++ diagLines (drv.execute w.db Stmt.selectAll).diag }) := by
  unfold fetchAllRecords
  by_cases hrc : SQL_SUCCEEDED (drv.execute w.db Stmt.selectAll).rc = true
  · simp [allocStmt, runStmt, hrc, fetchLoop_eq, World.log]
  · simp [allocStmt, runStmt, hrc, showError, showErrorLoop_eq, World.log]

/-- Claim C1. Round trip: for every Book `b` whose title and author have at most 255
characters and no embedded NUL, and every store in which no record has id `b.id`, entering
`b` into `addRecord` reports success, and `searchRecordByID` for `b.id` afterwards reports
"Record Found" with exactly the id, title, author and year of `b`. -/
theorem add_then_search_roundtrip (w : World TableDb) (b : Book)
    (hT : b.title.length ≤ 255) (hT0 : 0 ∉ b.title)
    (hA : b.author.length ≤ 255) (hA0 : 0 ∉ b.author)
    (hfresh : ∀ r ∈ w.db.rows, r.id ≠ b.id) :
    newOut w (addRecord tableDriver (some b.id) b.title b.author (some b.year) w) = [Out.added] ∧
    newOut (addRecord tableDriver (some b.id) b.title b.author (some b.year) w)
      (searchRecordByID tableDriver (some b.id)
        (addRecord tableDriver (some b.id) b.title b.author (some b.year) w))
      = [Out.recordFound b.id b.title b.author b.year] := by
  have hr : ¬ (255 < b.title.length) := by omega
  have hr2 : ¬ (255 < b.author.length) := by omega
  simp [newOut, addRecord, searchRecordByID, allocStmt, runStmt, World.log, World.put, tableDriver,
    tableExecute, cstr_eq_self _ hT0, cstr_eq_self _ hA0, any_id_fresh _ _ hfresh,
    filter_id_fresh _ _ hfresh, TableDb.refuses, TableDb.change, TableDb.answer, TableDb.reject,
    SQL_SUCCEEDED, SQLFetch, hr, hr2, List.filter_append, rowOfBook, List.take_of_length_le hT,
    List.take_of_length_le hA, recvInt, recvText, recvWChar_eq_self _ hT hT0,
    recvWChar_eq_self _ hA hA0]

/-- Witness for C1: "Ulysses" added to the two-record shelf and looked up again. -/
theorem add_then_search_roundtrip_witness :
    (ulysses.title.length ≤ 255 ∧ 0 ∉ ulysses.title ∧ ulysses.author.length ≤ 255 ∧
      0 ∉ ulysses.author ∧ ∀ r ∈ shelf.db.rows, r.id ≠ ulysses.id) ∧
    newOut shelf (addRecord tableDriver (some 3) ulysses.title ulysses.author (some 1922) shelf)
      = [Out.added] ∧
    newOut (addRecord tableDriver (some 3) ulysses.title ulysses.author (some 1922) shelf)
      (searchRecordByID tableDriver (some 3)
        (addRecord tableDriver (some 3) ulysses.title ulysses.author (some 1922) shelf))
      = [Out.recordFound 3 ulysses.title ulysses.author 1922] :=
  ⟨by decide, add_then_search_roundtrip shelf ulysses (by decide) (by decide) (by decide)
    (by decide) (by decide)⟩

set_option maxRecDepth 100000 in
/-- Counterexample to C2 as stated (every entered title and author).  On the shelf, where
id 1 exists: a title with an embedded NUL is stored only up to the NUL; a title of 256
characters is refused by a strict database (the diagnostic is printed, nothing changes) and
is cut to 255 characters by a lenient one.  In none of the three cases does the record end
up with the entered title. -/
theorem update_existing_unstorable_text :
    (∃ r ∈ shelf.db.rows, r.id = 1) ∧
    ¬ UpdateExisting shelf 1 [65, 0, 66] (ascii "Austen") 2020 ∧
    (updateRecord tableDriver (some 1) [65, 0, 66] (ascii "Austen") (some 2020) shelf).db.rows =
      [{ id := 1, title := [65], author := ascii "Austen", year := 2020 },
       { id := 2, title := ascii "Dune", author := ascii "Herbert", year := 1999 }] ∧
    ¬ UpdateExisting shelf 1 (List.replicate 256 65) (ascii "Austen") 2020 ∧
    newOut shelf (updateRecord tableDriver (some 1) (List.replicate 256 65) (ascii "Austen") (some 2020) shelf)
      = diagLines [dataTooLong] ∧
    ¬ UpdateExisting looseShelf 1 (List.replicate 256 65) (ascii "Austen") 2020 := by
  unfold UpdateExisting
  decide

/-- Claim C2, amended. Update-existing: for every store containing a record with the
entered id, every entered new title and new author of at most 255 characters without
embedded NUL, and every numeric new year, `updateRecord` reports the record as updated;
afterwards the record with that id has the entered title, author and year, its id is
unchanged and every other record is unchanged.  The calls are the existence check and then
the UPDATE with parameters in the order title, author, year, id. -/
theorem update_existing_storable (w : World TableDb) (id : Int) (t a : wstring) (y : Int)
    (hex : ∃ r ∈ w.db.rows, r.id = id)
    (hT : t.length ≤ 255) (hT0 : 0 ∉ t) (hA : a.length ≤ 255) (hA0 : 0 ∉ a) :
    UpdateExisting w id t a y ∧
    newCalls w (updateRecord tableDriver (some id) t a (some y) w) =
      [Call.AllocStmt w.nextStmt, Call.Prepare w.nextStmt, Call.BindParameter w.nextStmt 1,
       Call.Execute w.nextStmt (Stmt.checkId id), Call.Fetch w.nextStmt, Call.FreeStmt w.nextStmt,
       Call.AllocStmt (w.nextStmt + 1), Call.Prepare (w.nextStmt + 1),
       Call.BindParameter (w.nextStmt + 1) 1, Call.BindParameter (w.nextStmt + 1) 2,
       Call.BindParameter (w.nextStmt + 1) 3, Call.BindParameter (w.nextStmt + 1) 4,
       Call.Execute (w.nextStmt + 1) (Stmt.update t a y id), Call.FreeStmt (w.nextStmt + 1)] := by
  have hr : ¬ (255 < t.length) := by omega
  have hr2 : ¬ (255 < a.length) := by omega
  obtain ⟨r, rest, hf⟩ := filter_id_pos _ _ hex
  simp [UpdateExisting, updatedRows, newOut, newCalls, updateRecord, allocStmt, runStmt, World.log,
    World.put, tableDriver, tableExecute, cstr_eq_self _ hT0, cstr_eq_self _ hA0, hf,
    TableDb.refuses, TableDb.change, TableDb.answer, TableDb.reject,
    SQL_SUCCEEDED, SQLFetch, hr, hr2, List.take_of_length_le hT,
    List.take_of_length_le hA]

/-- Witness for the amended C2: record 1 of the shelf gets a new title, author and year. -/
theorem update_existing_storable_witness :
    (∃ r ∈ shelf.db.rows, r.id = 1) ∧
    UpdateExisting shelf 1 (ascii "Ulysses") (ascii "Joyce") 1922 ∧
    (updateRecord tableDriver (some 1) (ascii "Ulysses") (ascii "Joyce") (some 1922) shelf).db.rows =
      [{ id := 1, title := ascii "Ulysses", author := ascii "Joyce", year := 1922 },
       { id := 2, title := ascii "Dune", author := ascii "Herbert", year := 1999 }] :=
  ⟨by decide,
    (update_existing_storable shelf 1 (ascii "Ulysses") (ascii "Joyce") 1922 (by decide) (by decide)
      (by decide) (by decide) (by decide)).1,
    by decide⟩

/-- Claim C3. Update-missing: for every store and every entered id that no record has,
`updateRecord` reports "not found", makes only the calls of the existence check (no UPDATE
statement is prepared or executed), and leaves the store exactly as it was.  The new title,
author and year are never read. -/
theorem update_missing_no_mutation (w : World TableDb) (id : Int) (t a : wstring) (y : Option Int)
    (hno : ∀ r ∈ w.db.rows, r.id ≠ id) :
    newOut w (updateRecord tableDriver (some id) t a y w) = [Out.idNotFound id] ∧
    newCalls w (updateRecord tableDriver (some id) t a y w) =
      [Call.AllocStmt w.nextStmt, Call.Prepare w.nextStmt, Call.BindParameter w.nextStmt 1,
       Call.Execute w.nextStmt (Stmt.checkId id), Call.Fetch w.nextStmt, Call.FreeStmt w.nextStmt] ∧
    (updateRecord tableDriver (some id) t a y w).db = w.db := by
  simp [newOut, newCalls, updateRecord, allocStmt, runStmt, World.log, World.put, tableDriver,
    tableExecute, filter_id_fresh _ _ hno, TableDb.answer, SQL_SUCCEEDED, SQLFetch]

/-- Witness for C3: id 7 is not on the shelf. -/
theorem update_missing_no_mutation_witness :
    (∀ r ∈ shelf.db.rows, r.id ≠ 7) ∧
    newOut shelf (updateRecord tableDriver (some 7) [] [] (some 2020) shelf) = [Out.idNotFound 7] ∧
    (updateRecord tableDriver (some 7) [] [] (some 2020) shelf).db = shelf.db :=
  ⟨by decide,
    (update_missing_no_mutation shelf 7 [] [] (some 2020) (by decide)).1,
    (update_missing_no_mutation shelf 7 [] [] (some 2020) (by decide)).2.2⟩

/-- Claim C4. Delete: for every store keyed by unique id and every entered id: if the id is
present, the DELETE reports one affected row, `deleteRecord` prints "deleted successfully",
exactly the record with that id is gone while all others are unchanged, and
`searchRecordByID` for that id afterwards prints "not found"; if the id is not present, the
DELETE reports zero affected rows, `deleteRecord` prints "not found" without asking for any
diagnostic record, and the store is unchanged. -/
theorem delete_by_id (w : World TableDb) (id : Int) (hk : w.db.keyed) :
    ((∃ r ∈ w.db.rows, r.id = id) →
      (tableDriver.execute w.db (Stmt.delete id)).rowCount = 1 ∧
      newOut w (deleteRecord tableDriver (some id) w) = [Out.deleted id] ∧
      (deleteRecord tableDriver (some id) w).db.rows = w.db.rows.filter (fun b => b.id ≠ id) ∧
      newOut (deleteRecord tableDriver (some id) w)
        (searchRecordByID tableDriver (some id) (deleteRecord tableDriver (some id) w))
        = [Out.recordNotFound]) ∧
    ((∀ r ∈ w.db.rows, r.id ≠ id) →
      (tableDriver.execute w.db (Stmt.delete id)).rowCount = 0 ∧
      newOut w (deleteRecord tableDriver (some id) w) = [Out.idNotFound id] ∧
      (deleteRecord tableDriver (some id) w).db = w.db ∧
      ∀ c ∈ newCalls w (deleteRecord tableDriver (some id) w), ∀ t h i, c ≠ Call.GetDiagRec t h i) := by
  constructor
  · intro hex
    have h1 := filter_id_keyed _ _ hk hex
    simp [newOut, deleteRecord, searchRecordByID, allocStmt, runStmt, World.log, World.put,
      tableDriver, tableExecute, TableDb.change, TableDb.answer, SQL_SUCCEEDED, SQLFetch, h1,
      List.filter_filter]
  · intro hno
    simp [newOut, newCalls, deleteRecord, allocStmt, runStmt, World.log, World.put,
      tableDriver, tableExecute, TableDb.change, TableDb.answer, SQL_SUCCEEDED, SQLFetch,
      filter_id_fresh _ _ hno, filter_ne_fresh _ _ hno]

/-- Witness for C4: deleting id 2 (present) and id 7 (absent) on the shelf. -/
theorem delete_by_id_witness :
    (shelf.db.keyed ∧ (∃ r ∈ shelf.db.rows, r.id = 2) ∧ ∀ r ∈ shelf.db.rows, r.id ≠ 7) ∧
    (newOut shelf (deleteRecord tableDriver (some 2) shelf) = [Out.deleted 2] ∧
      (deleteRecord tableDriver (some 2) shelf).db.rows =
        [{ id := 1, title := ascii "Emma", author := ascii "Austen", year := 2001 }]) ∧
    (newOut shelf (deleteRecord tableDriver (some 7) shelf) = [Out.idNotFound 7] ∧
      (deleteRecord tableDriver (some 7) shelf).db = shelf.db) :=
  ⟨by decide,
    ⟨((delete_by_id shelf 2 (by decide)).1 (by decide)).2.1, by decide⟩,
    ⟨((delete_by_id shelf 7 (by decide)).2 (by decide)).2.1,
      ((delete_by_id shelf 7 (by decide)).2 (by decide)).2.2.1⟩⟩

/-! Sorting -/

/-- The comparison used by `case 1` is the lexicographic order on code-unit sequences. -/
theorem wstring_lt_iff (s t : wstring) : wstring_lt s t = true ↔ s < t := by
  induction s generalizing t with
  | nil =>
    cases t with
    | nil => simp [wstring_lt]
    | cons b bs => simp [wstring_lt, List.nil_lt_cons]
  | cons a as ih =>
    cases t with
    | nil =>
      simp only [wstring_lt, Bool.false_eq_true, false_iff]
      exact List.Lex.not_nil_right _ _
    | cons b bs =>
      unfold wstring_lt
      rcases Nat.lt_trichotomy a b with hab | hab | hab
      · simp only [hab, if_true, true_iff]
        exact List.Lex.rel hab
      · subst hab
        simp only [Nat.lt_irrefl, if_false, ih bs]
        exact (List.Lex.cons_iff (r := (· < ·))).symm
      · have hn : ¬ a < b := Nat.lt_asymm hab
        simp only [hn, hab, if_false, if_true, Bool.false_eq_true, false_iff]
        intro h
        exact lt_asymm h (List.Lex.rel hab)

theorem mem_insertBy (lt : Book → Book → Bool) (x z : Book) (l : List Book) :
    z ∈ insertBy lt x l ↔ z = x ∨ z ∈ l := by
  induction l with
  | nil => simp [insertBy]
  | cons y ys ih =>
    unfold insertBy
    by_cases h : lt y x = true
    · simp only [h, if_true, List.mem_cons, ih]
      tauto
    · simp only [h, if_false, List.mem_cons, Bool.false_eq_true]

theorem insertBy_perm (lt : Book → Book → Bool) (x : Book) (l : List Book) :
    (insertBy lt x l).Perm (x :: l) := by
  induction l with
  | nil => simp [insertBy]
  | cons y ys ih =>
    unfold insertBy
    by_cases h : lt y x = true
    · simp only [h, if_true]
      exact (ih.cons y).trans (List.Perm.swap x y ys)
    · simp only [h, if_false, Bool.false_eq_true]
      exact List.Perm.refl _

theorem stdSort_perm (lt : Book → Book → Bool) (l : List Book) : (stdSort lt l).Perm l := by
  induction l with
  | nil => exact List.Perm.refl _
  | cons x xs ih =>
    show (insertBy lt x (stdSort lt xs)).Perm (x :: xs)
    exact (insertBy_perm lt x _).trans (ih.cons x)

theorem insertBy_pairwise {κ : Type} [LinearOrder κ] (key : Book → κ) (lt : Book → Book → Bool)
    (hlt : ∀ a b, lt a b = true ↔ key a < key b) (x : Book) (l : List Book)
    (hl : l.Pairwise (fun a b => key a ≤ key b)) :
    (insertBy lt x l).Pairwise (fun a b => key a ≤ key b) := by
  induction l with
  | nil => simp [insertBy]
  | cons y ys ih =>
    rw [List.pairwise_cons] at hl
    unfold insertBy
    by_cases h : lt y x = true
    · simp only [h, if_true, List.pairwise_cons]
      refine ⟨?_, ih hl.2⟩
      intro z hz
      rcases (mem_insertBy lt x z ys).mp hz with rfl | hz
      · exact le_of_lt ((hlt _ _).mp h)
      · exact hl.1 z hz
    · simp only [h, if_false, Bool.false_eq_true, List.pairwise_cons]
      have hxy : key x ≤ key y := not_lt.mp (fun hlt2 => h ((hlt _ _).mpr hlt2))
      refine ⟨?_, hl.1, hl.2⟩
      intro z hz
      rcases List.mem_cons.mp hz with rfl | hz
      · exact hxy
      · exact le_trans hxy (hl.1 z hz)

theorem stdSort_pairwise {κ : Type} [LinearOrder κ] (key : Book → κ) (lt : Book → Book → Bool)
    (hlt : ∀ a b, lt a b = true ↔ key a < key b) (l : List Book) :
    (stdSort lt l).Pairwise (fun a b => key a ≤ key b) := by
  induction l with
  | nil => exact List.Pairwise.nil
  | cons x xs ih => exact insertBy_pairwise key lt hlt x _ ih

/-- Claim C5. Sort ordering: whenever the fetch yields a non-empty list of records,
`sortRecords` with choice 2 prints, after whatever the fetch printed, exactly the rows of a
permutation of that list in which every record is followed only by records of the same or a
later year, and with choice 1 the rows of a permutation in which every record is followed
only by records whose title is the same or greater in the lexicographic order on code
units.  A record of 2001 followed by one of 1999 comes out with the 1999 record first. -/
theorem sortRecords_sorted_perm {σ : Type} (drv : Driver σ) (w : World σ)
    (hne : (fetchAllRecords drv w).1 ≠ []) :
    ((sortRecords drv (some 2) w).out =
        (fetchAllRecords drv w).2.out ++ (stdSort byYear (fetchAllRecords drv w).1).map Out.bookRow ∧
      (stdSort byYear (fetchAllRecords drv w).1).Perm (fetchAllRecords drv w).1 ∧
      (stdSort byYear (fetchAllRecords drv w).1).Pairwise (fun a b => a.year ≤ b.year)) ∧
    ((sortRecords drv (some 1) w).out =
        (fetchAllRecords drv w).2.out ++ (stdSort byTitle (fetchAllRecords drv w).1).map Out.bookRow ∧
      (stdSort byTitle (fetchAllRecords drv w).1).Perm (fetchAllRecords drv w).1 ∧
      (stdSort byTitle (fetchAllRecords drv w).1).Pairwise (fun a b => a.title ≤ b.title)) ∧
    (∀ (i j : Int) (t a u c : wstring),
      stdSort byYear [{ id := i, title := t, author := a, year := 2001 },
                      { id := j, title := u, author := c, year := 1999 }] =
        [{ id := j, title := u, author := c, year := 1999 },
         { id := i, title := t, author := a, year := 2001 }]) := by
  have hE : (fetchAllRecords drv w).1.isEmpty = false := by
    cases h : (fetchAllRecords drv w).1 with
    | nil => exact absurd h hne
    | cons x xs => rfl
  refine ⟨⟨?_, stdSort_perm _ _, stdSort_pairwise Book.year byYear (fun a b => by simp [byYear]) _⟩,
    ⟨?_, stdSort_perm _ _, stdSort_pairwise Book.title byTitle (fun a b => wstring_lt_iff _ _) _⟩, ?_⟩
  · simp [sortRecords, hE, printRows]
  · simp [sortRecords, hE, printRows]
  · intro i j t a u c
    simp [stdSort, insertBy, byYear]

/-- Witness for C5: the shelf holds "Emma" (2001) before "Dune" (1999); both sort orders
print "Dune" first. -/
theorem sortRecords_sorted_perm_witness :
    (fetchAllRecords tableDriver shelf).1 ≠ [] ∧
    (sortRecords tableDriver (some 2) shelf).out =
      [Out.bookRow { id := 2, title := ascii "Dune", author := ascii "Herbert", year := 1999 },
       Out.bookRow { id := 1, title := ascii "Emma", author := ascii "Austen", year := 2001 }] ∧
    (stdSort byTitle (fetchAllRecords tableDriver shelf).1).Pairwise (fun a b => a.title ≤ b.title) :=
  ⟨by decide,
    ((sortRecords_sorted_perm tableDriver shelf (by decide)).1.1).trans (by decide),
    (sortRecords_sorted_perm tableDriver shelf (by decide)).2.1.2.2⟩

/-! Fetching all records -/

/-- The path of `main` that ends with exit code 0 releases the connection: its last three
calls are the disconnect and the two frees of `disconnectDB`. -/
theorem main_exit_releases {σ : Type} (drv : Driver σ) (input : List Keys) (w w2 : World σ)
    (h : main drv input w = some (0, w2)) :
    ∃ cs, w2.calls = cs ++ [Call.Disconnect, Call.FreeDbc, Call.FreeEnv] := by
  unfold main at h
  by_cases hc : (connectDB drv w).1 = true
  · simp only [hc, Bool.not_true, Bool.false_eq_true, if_false] at h
    cases hm : menuLoop drv input (connectDB drv w).2 with
    | none => simp [hm] at h
    | some w3 =>
      simp only [hm, Option.some.injEq, Prod.mk.injEq, true_and] at h
      refine ⟨w3.calls, ?_⟩
      rw [← h]
      simp [disconnectDB, World.log]
  · simp [hc] at h

/-- Claim C7, evaluated where the code departs from it.  When the connect attempt fails,
whatever the operator would type, `main` ends with exit code 1 after these calls: the
environment and connection handles have been allocated, and neither `SQLDisconnect` nor
the free of the connection handle nor the free of the environment handle is ever called. -/
theorem main_connect_failure_keeps_handles (d : Diag) (input : List Keys) (db : TableDb) :
    ∃ w, main (failingDriver d) input (World.start db) = some (1, w) ∧
      w.calls = [Call.AllocEnv, Call.SetEnvAttr, Call.AllocDbc, Call.DriverConnect,
        Call.GetDiagRec HandleType.SQL_HANDLE_DBC 0 1, Call.GetDiagRec HandleType.SQL_HANDLE_DBC 0 2] ∧
      Call.AllocEnv ∈ w.calls ∧ Call.AllocDbc ∈ w.calls ∧
      Call.Disconnect ∉ w.calls ∧ Call.FreeDbc ∉ w.calls ∧ Call.FreeEnv ∉ w.calls := by
  refine ⟨{ World.start db with
      calls := [Call.AllocEnv, Call.SetEnvAttr, Call.AllocDbc, Call.DriverConnect,
        Call.GetDiagRec HandleType.SQL_HANDLE_DBC 0 1, Call.GetDiagRec HandleType.SQL_HANDLE_DBC 0 2]
      out := Out.connectionFailed :: diagLines [d] }, ?_, ?_⟩
  · simp [main, connectDB, failingDriver, SQL_SUCCEEDED, showError, showErrorLoop_eq, World.log,
      World.put, World.start, diagCalls]
  · simp

/-! Failure reporting -/

/-- Claim C8, evaluated where the code departs from it.  On a driver whose statements all
fail with a diagnostic record `d`, `updateRecord` prints "Record with ID n not found." and
makes no `SQLGetDiagRecW` call after the failed existence check, whereas
`searchRecordByID` and `deleteRecord` in the same situation print the diagnostic. -/
theorem updateRecord_check_failure_says_not_found (d : Diag) (w : World TableDb) (id : Int)
    (t a : wstring) (y : Option Int) :
    newOut w (updateRecord (failingDriver d) (some id) t a y w) = [Out.idNotFound id] ∧
    newCalls w (updateRecord (failingDriver d) (some id) t a y w) =
      [Call.AllocStmt w.nextStmt, Call.Prepare w.nextStmt, Call.BindParameter w.nextStmt 1,
        Call.Execute w.nextStmt (Stmt.checkId id), Call.FreeStmt w.nextStmt] ∧
    newOut w (searchRecordByID (failingDriver d) (some id) w) = diagLines [d] ∧
    newOut w (deleteRecord (failingDriver d) (some id) w) = diagLines [d] := by
  simp [newOut, newCalls, updateRecord, searchRecordByID, deleteRecord, failingDriver, allocStmt,
    runStmt, World.log, World.put, TableDb.reject, SQL_SUCCEEDED, showError, showErrorLoop_eq]

/-! Statement handles -/

/-- The discipline is not vacuous: a leaked handle, a use after free, a double free, a second
statement on one handle and a use without allocation are each rejected. -/
theorem disciplined_rejects :
    disciplined [Call.AllocStmt 1, Call.Prepare 1] = false ∧
    disciplined [Call.AllocStmt 1, Call.FreeStmt 1, Call.Fetch 1] = false ∧
    disciplined [Call.AllocStmt 1, Call.FreeStmt 1, Call.FreeStmt 1] = false ∧
    disciplined [Call.AllocStmt 1, Call.Prepare 1, Call.Prepare 1, Call.FreeStmt 1] = false ∧
    disciplined [Call.Fetch 1] = false := by
  decide

theorem foldl_fetchCalls (s : Handles) (h : Nat) (hl : h ∈ s.live) (cursor : List (SQLRETURN × Row)) :
    (fetchCalls h cursor).foldl Handles.step s = s := by
  induction cursor with
  | nil => simp [fetchCalls, Handles.step, Handles.use, hl]
  | cons p rest ih =>
    obtain ⟨rc, row⟩ := p
    by_cases hrc : rc = SQL_SUCCESS
    · simp [fetchCalls, hrc, Handles.step, Handles.use, hl, ih]
    · simp [fetchCalls, hrc, Handles.step, Handles.use, hl]

theorem foldl_diagCalls (s : Handles) (h : Nat) (hl : h ∈ s.live) (i : Nat) (ds : List Diag) :
    (diagCalls HandleType.SQL_HANDLE_STMT h i ds).foldl Handles.step s = s := by
  induction ds generalizing i with
  | nil => simp [diagCalls, Handles.step, Handles.use, hl]
  | cons d ds ih => simp [diagCalls, Handles.step, Handles.use, hl, ih]

theorem fetchAllRecords_disciplined {σ : Type} (drv : Driver σ) (w : World σ) :
    disciplined (newCalls w (fetchAllRecords drv w).2) = true := by
  rw [fetchAllRecords_eq]
  by_cases hrc : SQL_SUCCEEDED (drv.execute w.db Stmt.selectAll).rc = true
  · simp [hrc, newCalls, disciplined, List.foldl_append, Handles.step, Handles.attach,
      foldl_fetchCalls]
  · simp [hrc, newCalls, disciplined, List.foldl_append, Handles.step, Handles.attach,
      foldl_diagCalls]

theorem addRecord_disciplined {σ : Type} (drv : Driver σ) (w : World σ) (idIn : Option Int)
    (t a : wstring) (yIn : Option Int) :
    disciplined (newCalls w (addRecord drv idIn t a yIn w)) = true := by
  cases idIn with
  | none => simp [addRecord, newCalls, World.put, disciplined]
  | some id =>
    cases yIn with
    | none => simp [addRecord, newCalls, World.put, disciplined]
    | some y =>
      by_cases hrc : SQL_SUCCEEDED (drv.execute w.db (Stmt.insert id (cstr t) (cstr a) y)).rc = true
      · simp [addRecord, allocStmt, runStmt, World.log, World.put, hrc, newCalls, disciplined,
          Handles.step, Handles.attach, Handles.use]
      · simp [addRecord, allocStmt, runStmt, World.log, World.put, hrc, newCalls, disciplined,
          Handles.step, Handles.attach, Handles.use, showError, showErrorLoop_eq,
          List.foldl_append, foldl_diagCalls]

theorem searchRecordByID_disciplined {σ : Type} (drv : Driver σ) (w : World σ) (idIn : Option Int) :
    disciplined (newCalls w (searchRecordByID drv idIn w)) = true := by
  cases idIn with
  | none => simp [searchRecordByID, newCalls, World.put, disciplined]
  | some id =>
    by_cases hrc : SQL_SUCCEEDED (drv.execute w.db (Stmt.selectById id)).rc = true
    · have hcalls : newCalls w (searchRecordByID drv (some id) w) =
          [Call.AllocStmt w.nextStmt, Call.Prepare w.nextStmt, Call.BindParameter w.nextStmt 1,
            Call.Execute w.nextStmt (Stmt.selectById id), Call.BindCol w.nextStmt 1,
            Call.BindCol w.nextStmt 2, Call.BindCol w.nextStmt 3, Call.BindCol w.nextStmt 4,
            Call.Fetch w.nextStmt, Call.FreeStmt w.nextStmt] := by
        simp only [searchRecordByID, allocStmt, runStmt, World.log, World.put, hrc, newCalls, if_true]
        split <;> simp
      rw [hcalls]
      simp [disciplined, Handles.step, Handles.attach, Handles.use]
    · simp [searchRecordByID, allocStmt, runStmt, World.log, World.put, hrc, newCalls, disciplined,
        Handles.step, Handles.attach, Handles.use, showError, showErrorLoop_eq,
        List.foldl_append, foldl_diagCalls]

theorem deleteRecord_disciplined {σ : Type} (drv : Driver σ) (w : World σ) (idIn : Option Int) :
    disciplined (newCalls w (deleteRecord drv idIn w)) = true := by
  cases idIn with
  | none => simp [deleteRecord, newCalls, World.put, disciplined]
  | some id =>
    by_cases hrc : SQL_SUCCEEDED (drv.execute w.db (Stmt.delete id)).rc = true
    · by_cases hn : (drv.execute w.db (Stmt.delete id)).rowCount > 0
      · simp [deleteRecord, allocStmt, runStmt, World.log, World.put, hrc, hn, newCalls, disciplined,
          Handles.step, Handles.attach, Handles.use]
      · simp [deleteRecord, allocStmt, runStmt, World.log, World.put, hrc, hn, newCalls, disciplined,
          Handles.step, Handles.attach, Handles.use]
    · simp [deleteRecord, allocStmt, runStmt, World.log, World.put, hrc, newCalls, disciplined,
        Handles.step, Handles.attach, Handles.use, showError, showErrorLoop_eq,
        List.foldl_append, foldl_diagCalls]

theorem updateRecord_disciplined {σ : Type} (drv : Driver σ) (w : World σ) (idIn : Option Int)
    (t a : wstring) (yIn : Option Int) :
    disciplined (newCalls w (updateRecord drv idIn t a yIn w)) = true := by
  cases idIn with
  | none => simp [updateRecord, newCalls, World.put, disciplined]
  | some id =>
    by_cases hrc : SQL_SUCCEEDED (drv.execute w.db (Stmt.checkId id)).rc = true
    · by_cases hf : (SQLFetch (drv.execute w.db (Stmt.checkId id)).cursor).1 = SQL_SUCCESS
      · cases yIn with
        | none =>
          simp [updateRecord, allocStmt, runStmt, World.log, World.put, hrc, hf, newCalls,
            disciplined, Handles.step, Handles.attach, Handles.use]
        | some y =>
          by_cases hu : SQL_SUCCEEDED (drv.execute (drv.execute w.db (Stmt.checkId id)).db
              (Stmt.update (cstr t) (cstr a) y id)).rc = true
          · simp [updateRecord, allocStmt, runStmt, World.log, World.put, hrc, hf, hu, newCalls,
              disciplined, Handles.step, Handles.attach, Handles.use]
          · simp [updateRecord, allocStmt, runStmt, World.log, World.put, hrc, hf, hu, newCalls,
              disciplined, Handles.step, Handles.attach, Handles.use, showError, showErrorLoop_eq,
              List.foldl_append, foldl_diagCalls]
      · simp [updateRecord, allocStmt, runStmt, World.log, World.put, hrc, hf, newCalls,
          disciplined, Handles.step, Handles.attach, Handles.use]
    · simp [updateRecord, allocStmt, runStmt, World.log, World.put, hrc, newCalls,
        disciplined, Handles.step, Handles.attach, Handles.use]

/-- Claim C9. Statement-handle balance: for every driver, every world and every input
(numeric or not, including a non-numeric new year entered in `updateRecord` after the
existence check passed), the calls made by each of `fetchAllRecords`, `addRecord`,
`searchRecordByID`, `deleteRecord` and `updateRecord` keep the statement-handle discipline:
every handle the operation allocated is freed exactly once before it returns, no handle is
used after being freed, and no handle carries two statements. -/
theorem statement_handles_balanced {σ : Type} (drv : Driver σ) (w : World σ) :
    disciplined (newCalls w (fetchAllRecords drv w).2) = true ∧
    (∀ (idIn : Option Int) (title author : wstring) (yearIn : Option Int),
      disciplined (newCalls w (addRecord drv idIn title author yearIn w)) = true) ∧
    (∀ idIn : Option Int, disciplined (newCalls w (searchRecordByID drv idIn w)) = true) ∧
    (∀ idIn : Option Int, disciplined (newCalls w (deleteRecord drv idIn w)) = true) ∧
    (∀ (idIn : Option Int) (newTitle newAuthor : wstring) (newYearIn : Option Int),
      disciplined (newCalls w (updateRecord drv idIn newTitle newAuthor newYearIn w)) = true) :=
  ⟨fetchAllRecords_disciplined drv w,
    fun idIn t a yIn => addRecord_disciplined drv w idIn t a yIn,
    fun idIn => searchRecordByID_disciplined drv w idIn,
    fun idIn => deleteRecord_disciplined drv w idIn,
    fun idIn t a yIn => updateRecord_disciplined drv w idIn t a yIn⟩

/-! The update report and the row count -/

/-- Claim C10. The report of `updateRecord` does not depend on the number of rows the
UPDATE matched: replacing every row count the driver reports by any number `n` changes
nothing in what `updateRecord` does.  And there is a driver behaviour where the existence
check finds the row, the UPDATE then succeeds with zero rows affected (another client
removed the row in between), and `updateRecord` still prints "updated successfully" while
the table holds no record. -/
theorem updateRecord_ignores_row_count :
    (∀ (σ : Type) (drv : Driver σ) (n : Int) (idIn : Option Int) (t a : wstring) (yIn : Option Int)
        (w : World σ),
      updateRecord (withRowCount drv n) idIn t a yIn w = updateRecord drv idIn t a yIn w) ∧
    (∀ (b : Book) (t a : wstring) (y : Int),
      (racingDriver.execute { rows := [], strict := false } (Stmt.update (cstr t) (cstr a) y b.id)).rc
          = SQL_SUCCESS ∧
      (racingDriver.execute { rows := [], strict := false } (Stmt.update (cstr t) (cstr a) y b.id)).rowCount
          = 0 ∧
      (updateRecord racingDriver (some b.id) t a (some y) (World.start { rows := [b], strict := false })).out
          = [Out.updated b.id] ∧
      (updateRecord racingDriver (some b.id) t a (some y) (World.start { rows := [b], strict := false })).calls
          = [Call.AllocStmt 1, Call.Prepare 1, Call.BindParameter 1 1, Call.Execute 1 (Stmt.checkId b.id),
             Call.Fetch 1, Call.FreeStmt 1, Call.AllocStmt 2, Call.Prepare 2, Call.BindParameter 2 1,
             Call.BindParameter 2 2, Call.BindParameter 2 3, Call.BindParameter 2 4,
             Call.Execute 2 (Stmt.update (cstr t) (cstr a) y b.id), Call.FreeStmt 2] ∧
      (updateRecord racingDriver (some b.id) t a (some y) (World.start { rows := [b], strict := false })).db.rows
          = []) := by
  constructor
  · intro σ drv n idIn t a yIn w
    simp [updateRecord, withRowCount, allocStmt, runStmt]
  · intro b t a y
    simp [updateRecord, racingDriver, tableExecute, allocStmt, runStmt, World.log, World.put,
      World.start, TableDb.refuses, TableDb.change, TableDb.answer, SQL_SUCCEEDED, SQLFetch]

end RMS
